import Mathlib

/-!
Shallow embedding of the OXM (OpenFlow eXtensible Match) codec of the `ofpkt`
crate: the byte-buffer accessor for the 4-byte OXM TLV header
(`src/oxm/packet.rs`), the per-field codecs (`src/oxm/fields/header.rs`,
`src/oxm/fields/pipeline.rs`), the field-id dispatch
(`src/oxm/fields/mod.rs`), the class dispatch and packet registers
(`src/oxm/mod.rs`), and the flow-match aggregate (`src/oxm/flow_match.rs`).

Buffers are `List Nat` of byte values. Machine integers are `Nat` with the
exact bit-masks and modular casts the source performs. Fallible Rust is
modelled in three layers:

* `Option` for buffer primitives that can panic in Rust (out-of-range
  indexing and slicing, `copy_from_slice` length mismatch, `byteorder`
  reads/writes on short slices): `none` is a panic;
* `Outcome` for `Result`-returning operations: `Outcome.ok`, `Outcome.err`
  (a returned `Err`), and `Outcome.panicked` (a Rust panic reached while
  computing, lifted from the `Option` layer).

Wrapper types from `smoltcp` (`EthernetAddress`, `Ipv4Address`,
`EthernetProtocol`, `Icmpv4Message`, and the crate's own `PortNumber`) are
modelled by their byte/numeric contents: each converts to and from the raw
wire integer or byte slice totally, so the codec manipulates exactly those
raw contents.
-/

/-- The error enum of `src/lib.rs` (`__Nonexhaustive` is unconstructible and
omitted). -/
inductive Error where
  | exhausted
  | truncated
  | unrecognized
  | malformed
  | badOxmClass
  | unsupportedOxmClass
  | badOxmField
  | badMatchType
deriving DecidableEq

/-- Result of running a fallible Rust operation: a returned value, a returned
`Err`, or a panic (modelled for out-of-bounds accesses the source can hit). -/
inductive Outcome (α : Type) where
  | ok : α → Outcome α
  | err : Error → Outcome α
  | panicked : Outcome α
deriving DecidableEq

/-- Map over a successful outcome, as `Result::map` / the `Ok(...)` wrapping
around a `?`-propagated subresult. -/
def Outcome.map (f : α → β) : Outcome α → Outcome β
  | .ok a => .ok (f a)
  | .err e => .err e
  | .panicked => .panicked

/-- Lift a panicking computation (`Option`) into an `Outcome`. -/
def liftOpt : Option α → Outcome α
  | some a => .ok a
  | none => .panicked

/-- Big-endian byte string of width `n` for a value `v` (network byte order,
as `byteorder::NetworkEndian` writes it). -/
def beBytes : Nat → Nat → List Nat
  | 0, _ => []
  | n + 1, v => beBytes n (v / 256) ++ [v % 256]

/-- Big-endian value of a byte string (as `byteorder::NetworkEndian` reads). -/
def beVal (bs : List Nat) : Nat := bs.foldl (fun acc b => acc * 256 + b) 0

/-- Rust slice `&l[off..off+n]`: `none` models the panic when the range is out
of bounds. -/
def bytesAt (l : List Nat) (off n : Nat) : Option (List Nat) :=
  if off + n ≤ l.length then some ((l.drop off).take n) else none

/-- Big-endian read of `n` bytes at `off`, modelling
`NetworkEndian::read_uXX(&l[off..off+n])` (panic on a short slice). -/
def readBE (l : List Nat) (off n : Nat) : Option Nat :=
  (bytesAt l off n).map beVal

/-- Write the byte string `bs` at offset `off`, modelling
`NetworkEndian::write_uXX` / `copy_from_slice` into `&mut l[off..off+len]`
(panic when the range is out of bounds). -/
def writeBytesAt (l : List Nat) (off : Nat) (bs : List Nat) : Option (List Nat) :=
  if off + bs.length ≤ l.length then
    some (l.take off ++ bs ++ l.drop (off + bs.length))
  else none

/-- Rust `l[i] = v` (panic when `i` is out of bounds). -/
def setByte (l : List Nat) (i v : Nat) : Option (List Nat) :=
  writeBytesAt l i [v]

/-- Rust `dst.copy_from_slice(src)` on a whole slice: panics unless the
lengths match exactly. -/
def copyWhole (dst src : List Nat) : Option (List Nat) :=
  if dst.length = src.length then some src else none

/-- Rust `dst[off..].copy_from_slice(src)`: the slice panics when
`off > len`, the copy panics unless the tail length equals `src`'s. -/
def copyTail (dst : List Nat) (off : Nat) (src : List Nat) : Option (List Nat) :=
  if off ≤ dst.length ∧ dst.length - off = src.length then
    some (dst.take off ++ src)
  else none

/-! ## `src/oxm/packet.rs`: the OXM TLV header accessor

Field layout constants of its `field` module: `CLASS = 0..2`, `FIELD = 2`,
`MASK = 2`, `LENGTH = 3`, `VALUE = 4..`. -/

/-- `Packet::class()`: `read_u16(&inner[0..2])`. -/
def oxmClassField (l : List Nat) : Option Nat := readBE l 0 2

/-- `Packet::field()`: `(inner[2] & 0xfe) >> 1`. -/
def oxmFieldBits (l : List Nat) : Option Nat :=
  (l[2]?).map fun b => (Nat.land b 0xfe) >>> 1

/-- `Packet::has_mask()`: `inner[2] & 0x01 == 1`. -/
def oxmHasMask (l : List Nat) : Option Bool :=
  (l[2]?).map fun b => Nat.land b 0x01 == 1

/-- `Packet::length()`: `inner[3]` (panics when the buffer is shorter than 4
bytes). -/
def oxmLengthField (l : List Nat) : Option Nat := l[3]?

/-- `Packet::value()`: `&inner[4..]` (the `RangeFrom` slice panics when the
buffer is shorter than 4 bytes). -/
def oxmValue (l : List Nat) : Option (List Nat) :=
  if 4 ≤ l.length then some (l.drop 4) else none

/-- `Packet::check_len()`: `if len < field::LENGTH || len < self.length() as
usize + field::LENGTH { Err(Truncated) } else { Ok(()) }` with
`field::LENGTH = 3`; when `len = 3` the read `inner[3]` inside `self.length()`
is out of bounds and panics. -/
def oxmCheckLen (l : List Nat) : Outcome Unit :=
  if l.length < 3 then .err .truncated
  else
    match l[3]? with
    | none => .panicked
    | some d => if l.length < d + 3 then .err .truncated else .ok ()

/-- `Packet::set_field(value)`: `inner[2] = value << 1 | (inner[2] & 1)`
(the `u8` shift wraps). -/
def setFieldByte (l : List Nat) (c : Nat) : Option (List Nat) :=
  match l[2]? with
  | none => none
  | some old => writeBytesAt l 2 [Nat.lor (c * 2 % 256) (Nat.land old 1)]

/-- `Packet::set_mask()`: `inner[2] |= 1`. -/
def setMaskBit (l : List Nat) : Option (List Nat) :=
  match l[2]? with
  | none => none
  | some old => writeBytesAt l 2 [Nat.lor old 1]

/-- `Packet::unset_mask()`: `inner[2] &= 0xfe`. -/
def unsetMaskBit (l : List Nat) : Option (List Nat) :=
  match l[2]? with
  | none => none
  | some old => writeBytesAt l 2 [Nat.land old 0xfe]

/-! ## `src/oxm/fields/pipeline.rs`: pipeline fields -/

/-- `InPort(u32)` (field code 0). -/
structure InPort where
  value : Nat
deriving DecidableEq

def InPort.new (value : Nat) : InPort := ⟨value⟩

def InPort.parse (l : List Nat) : Option InPort := do
  let v ← oxmValue l
  let value ← readBE v 0 4
  some (InPort.new value)

def InPort.value_len (_ : InPort) : Nat := 4

def InPort.emit_value (f : InPort) (buf : List Nat) : Option (List Nat) :=
  writeBytesAt buf 0 (beBytes 4 f.value)

def InPort.has_mask (_ : InPort) : Bool := false

def InPort.code : Nat := 0

/-- `InPhysicalPort(u32)` (field code 1). -/
structure InPhysicalPort where
  value : Nat
deriving DecidableEq

def InPhysicalPort.new (value : Nat) : InPhysicalPort := ⟨value⟩

def InPhysicalPort.parse (l : List Nat) : Option InPhysicalPort := do
  let v ← oxmValue l
  let value ← readBE v 0 4
  some (InPhysicalPort.new value)

def InPhysicalPort.value_len (_ : InPhysicalPort) : Nat := 4

def InPhysicalPort.emit_value (f : InPhysicalPort) (buf : List Nat) : Option (List Nat) :=
  writeBytesAt buf 0 (beBytes 4 f.value)

def InPhysicalPort.has_mask (_ : InPhysicalPort) : Bool := false

def InPhysicalPort.code : Nat := 1

/-- `Metadata { value: u64, mask: Option<u64> }` (field code 2, arbitrary
masks, value length doubling with the mask). -/
structure Metadata where
  value : Nat
  mask : Option Nat
deriving DecidableEq

def Metadata.new (value : Nat) (mask : Option Nat) : Metadata := ⟨value, mask⟩

def Metadata.parse (l : List Nat) : Option Metadata := do
  let v ← oxmValue l
  let value ← readBE v 0 8
  let hm ← oxmHasMask l
  if hm then
    let m ← readBE v 8 8
    some (Metadata.new value (some m))
  else
    some (Metadata.new value none)

def Metadata.value_len (f : Metadata) : Nat := if f.mask.isSome then 16 else 8

def Metadata.emit_value (f : Metadata) (buf : List Nat) : Option (List Nat) := do
  let b ← writeBytesAt buf 0 (beBytes 8 f.value)
  match f.mask with
  | some m => writeBytesAt b 8 (beBytes 8 m)
  | none => some b

def Metadata.has_mask (f : Metadata) : Bool := f.mask.isSome

def Metadata.code : Nat := 2

/-- `TunnelId { value: u64, mask: Option<u64> }` (field code 38). -/
structure TunnelId where
  value : Nat
  mask : Option Nat
deriving DecidableEq

def TunnelId.new (value : Nat) (mask : Option Nat) : TunnelId := ⟨value, mask⟩

def TunnelId.parse (l : List Nat) : Option TunnelId := do
  let v ← oxmValue l
  let value ← readBE v 0 8
  let hm ← oxmHasMask l
  if hm then
    let m ← readBE v 8 8
    some (TunnelId.new value (some m))
  else
    some (TunnelId.new value none)

def TunnelId.value_len (f : TunnelId) : Nat := if f.mask.isSome then 16 else 8

def TunnelId.emit_value (f : TunnelId) (buf : List Nat) : Option (List Nat) := do
  let b ← writeBytesAt buf 0 (beBytes 8 f.value)
  match f.mask with
  | some m => writeBytesAt b 8 (beBytes 8 m)
  | none => some b

def TunnelId.has_mask (f : TunnelId) : Bool := f.mask.isSome

def TunnelId.code : Nat := 38

/-- `ActionSetOutput(PortNumber)` (field code 43); `PortNumber` is modelled by
its 32-bit wire value, the conversions being mutually inverse total maps. -/
structure ActionSetOutput where
  value : Nat
deriving DecidableEq

def ActionSetOutput.new (value : Nat) : ActionSetOutput := ⟨value⟩

def ActionSetOutput.parse (l : List Nat) : Option ActionSetOutput := do
  let v ← oxmValue l
  let value ← readBE v 0 4
  some (ActionSetOutput.new value)

def ActionSetOutput.value_len (_ : ActionSetOutput) : Nat := 4

def ActionSetOutput.emit_value (f : ActionSetOutput) (buf : List Nat) : Option (List Nat) :=
  writeBytesAt buf 0 (beBytes 4 f.value)

def ActionSetOutput.has_mask (_ : ActionSetOutput) : Bool := false

def ActionSetOutput.code : Nat := 43

/-- `PacketType(u32)` (field code 44). -/
structure PacketType where
  value : Nat
deriving DecidableEq

def PacketType.new (value : Nat) : PacketType := ⟨value⟩

def PacketType.parse (l : List Nat) : Option PacketType := do
  let v ← oxmValue l
  let value ← readBE v 0 4
  some (PacketType.new value)

def PacketType.value_len (_ : PacketType) : Nat := 4

def PacketType.emit_value (f : PacketType) (buf : List Nat) : Option (List Nat) :=
  writeBytesAt buf 0 (beBytes 4 f.value)

def PacketType.has_mask (_ : PacketType) : Bool := false

def PacketType.code : Nat := 44

/-! ## `src/oxm/fields/header.rs`: protocol header fields -/

/-- `EthernetDestination { value: EthernetAddress, mask: Option<..> }`
(field code 3); MAC addresses are modelled by their 6-byte strings. -/
structure EthernetDestination where
  value : List Nat
  mask : Option (List Nat)
deriving DecidableEq

def EthernetDestination.new (value : List Nat) (mask : Option (List Nat)) :
    EthernetDestination := ⟨value, mask⟩

def EthernetDestination.parse (l : List Nat) : Option EthernetDestination := do
  let v ← oxmValue l
  let value ← bytesAt v 0 6
  let hm ← oxmHasMask l
  if hm then
    let m ← bytesAt v 6 6
    some (EthernetDestination.new value (some m))
  else
    some (EthernetDestination.new value none)

def EthernetDestination.value_len (f : EthernetDestination) : Nat :=
  if f.mask.isSome then 12 else 6

/-- `emit_value`: `buf.copy_from_slice(value)` (whole-slice copy), then for a
mask `buf[6..].copy_from_slice(mask)`. -/
def EthernetDestination.emit_value (f : EthernetDestination) (buf : List Nat) :
    Option (List Nat) := do
  let b ← copyWhole buf f.value
  match f.mask with
  | some m => copyTail b 6 m
  | none => some b

def EthernetDestination.has_mask (f : EthernetDestination) : Bool := f.mask.isSome

def EthernetDestination.code : Nat := 3

/-- `EthernetSource` (field code 4), identical shape to the destination. -/
structure EthernetSource where
  value : List Nat
  mask : Option (List Nat)
deriving DecidableEq

def EthernetSource.new (value : List Nat) (mask : Option (List Nat)) :
    EthernetSource := ⟨value, mask⟩

def EthernetSource.parse (l : List Nat) : Option EthernetSource := do
  let v ← oxmValue l
  let value ← bytesAt v 0 6
  let hm ← oxmHasMask l
  if hm then
    let m ← bytesAt v 6 6
    some (EthernetSource.new value (some m))
  else
    some (EthernetSource.new value none)

def EthernetSource.value_len (f : EthernetSource) : Nat :=
  if f.mask.isSome then 12 else 6

def EthernetSource.emit_value (f : EthernetSource) (buf : List Nat) :
    Option (List Nat) := do
  let b ← copyWhole buf f.value
  match f.mask with
  | some m => copyTail b 6 m
  | none => some b

def EthernetSource.has_mask (f : EthernetSource) : Bool := f.mask.isSome

def EthernetSource.code : Nat := 4

/-- `EthernetType(EthernetProtocol)` (field code 5). The codec exists in
`header.rs`, but `FlowMatchField` has no variant for it and
`FlowMatchField::parse` has no dispatch arm for code 5. -/
structure EthernetType where
  value : Nat
deriving DecidableEq

def EthernetType.new (value : Nat) : EthernetType := ⟨value⟩

def EthernetType.parse (l : List Nat) : Option EthernetType := do
  let v ← oxmValue l
  let value ← readBE v 0 2
  some (EthernetType.new value)

def EthernetType.value_len (_ : EthernetType) : Nat := 2

def EthernetType.emit_value (f : EthernetType) (buf : List Nat) : Option (List Nat) :=
  writeBytesAt buf 0 (beBytes 2 f.value)

def EthernetType.has_mask (_ : EthernetType) : Bool := false

def EthernetType.code : Nat := 5

/-- `VlanId { value: u16, mask: Option<u16> }` (field code 6): 13 significant
bits, truncated with `0x1fff` at construction and mutation. -/
structure VlanId where
  value : Nat
  mask : Option Nat
deriving DecidableEq

def VlanId.new (value : Nat) (mask : Option Nat) : VlanId :=
  ⟨Nat.land value 0x1fff, mask.map fun m => Nat.land m 0x1fff⟩

def VlanId.parse (l : List Nat) : Option VlanId := do
  let v ← oxmValue l
  let value ← readBE v 0 2
  let hm ← oxmHasMask l
  if hm then
    let m ← readBE v 2 2
    some (VlanId.new value (some m))
  else
    some (VlanId.new value none)

/-- `value_len` returns 2 whether or not the mask is present. -/
def VlanId.value_len (_ : VlanId) : Nat := 2

/-- `emit_value`: `write_u16(buf, value)` then for a mask
`write_u16(&mut buf[2..4], mask)`. -/
def VlanId.emit_value (f : VlanId) (buf : List Nat) : Option (List Nat) := do
  let b ← writeBytesAt buf 0 (beBytes 2 f.value)
  match f.mask with
  | some m => writeBytesAt b 2 (beBytes 2 m)
  | none => some b

def VlanId.set_value (f : VlanId) (value : Nat) : VlanId :=
  { f with value := Nat.land 0x1fff value }

def VlanId.has_mask (f : VlanId) : Bool := f.mask.isSome

def VlanId.code : Nat := 6

def VlanId.set_mask (f : VlanId) (mask : Nat) : VlanId :=
  { f with mask := some (Nat.land mask 0x1fff) }

def VlanId.unset_mask (f : VlanId) : VlanId := { f with mask := none }

/-- `VlanPriority(u8)` (field code 7): 3 significant bits. -/
structure VlanPriority where
  value : Nat
deriving DecidableEq

def VlanPriority.new (value : Nat) : VlanPriority := ⟨Nat.land value 0b00000111⟩

def VlanPriority.parse (l : List Nat) : Option VlanPriority := do
  let v ← oxmValue l
  let b ← v[0]?
  some (VlanPriority.new b)

def VlanPriority.value_len (_ : VlanPriority) : Nat := 1

def VlanPriority.emit_value (f : VlanPriority) (buf : List Nat) : Option (List Nat) :=
  setByte buf 0 f.value

def VlanPriority.set_value (f : VlanPriority) (value : Nat) : VlanPriority :=
  { f with value := Nat.land value 0b00000111 }

def VlanPriority.has_mask (_ : VlanPriority) : Bool := false

def VlanPriority.code : Nat := 7

/-- `IpDscp(u8)` (field code 8): 6 significant bits. -/
structure IpDscp where
  value : Nat
deriving DecidableEq

def IpDscp.new (value : Nat) : IpDscp := ⟨Nat.land value 0b00111111⟩

def IpDscp.parse (l : List Nat) : Option IpDscp := do
  let v ← oxmValue l
  let b ← v[0]?
  some (IpDscp.new b)

def IpDscp.value_len (_ : IpDscp) : Nat := 1

def IpDscp.emit_value (f : IpDscp) (buf : List Nat) : Option (List Nat) :=
  setByte buf 0 f.value

def IpDscp.set_value (f : IpDscp) (value : Nat) : IpDscp :=
  { f with value := Nat.land value 0b00111111 }

def IpDscp.has_mask (_ : IpDscp) : Bool := false

def IpDscp.code : Nat := 8

/-- `IpEcn(u8)` (field code 9): 2 significant bits. -/
structure IpEcn where
  value : Nat
deriving DecidableEq

def IpEcn.new (value : Nat) : IpEcn := ⟨Nat.land value 0b00000011⟩

def IpEcn.parse (l : List Nat) : Option IpEcn := do
  let v ← oxmValue l
  let b ← v[0]?
  some (IpEcn.new b)

def IpEcn.value_len (_ : IpEcn) : Nat := 1

def IpEcn.emit_value (f : IpEcn) (buf : List Nat) : Option (List Nat) :=
  setByte buf 0 f.value

def IpEcn.set_value (f : IpEcn) (value : Nat) : IpEcn :=
  { f with value := Nat.land value 0b00000011 }

def IpEcn.has_mask (_ : IpEcn) : Bool := false

def IpEcn.code : Nat := 9

/-- `IpProtocol(u8)` (field code 10). -/
structure IpProtocol where
  value : Nat
deriving DecidableEq

def IpProtocol.new (value : Nat) : IpProtocol := ⟨value⟩

def IpProtocol.parse (l : List Nat) : Option IpProtocol := do
  let v ← oxmValue l
  let b ← v[0]?
  some (IpProtocol.new b)

def IpProtocol.value_len (_ : IpProtocol) : Nat := 1

def IpProtocol.emit_value (f : IpProtocol) (buf : List Nat) : Option (List Nat) :=
  setByte buf 0 f.value

def IpProtocol.has_mask (_ : IpProtocol) : Bool := false

def IpProtocol.code : Nat := 10

/-- `Ipv4Source { value: Ipv4Address, mask: Option<..> }` (field code 11);
IPv4 addresses are modelled by their 4-byte strings. -/
structure Ipv4Source where
  value : List Nat
  mask : Option (List Nat)
deriving DecidableEq

def Ipv4Source.new (value : List Nat) (mask : Option (List Nat)) : Ipv4Source :=
  ⟨value, mask⟩

def Ipv4Source.parse (l : List Nat) : Option Ipv4Source := do
  let v ← oxmValue l
  let value ← bytesAt v 0 4
  let hm ← oxmHasMask l
  if hm then
    let m ← bytesAt v 4 4
    some (Ipv4Source.new value (some m))
  else
    some (Ipv4Source.new value none)

/-- `value_len` returns 4 whether or not the mask is present. -/
def Ipv4Source.value_len (_ : Ipv4Source) : Nat := 4

/-- `emit_value`: `buf[0..4].copy_from_slice(value)` then for a mask
`buf[4..8].copy_from_slice(mask)`. -/
def Ipv4Source.emit_value (f : Ipv4Source) (buf : List Nat) : Option (List Nat) := do
  let b ← writeBytesAt buf 0 f.value
  match f.mask with
  | some m => writeBytesAt b 4 m
  | none => some b

def Ipv4Source.has_mask (f : Ipv4Source) : Bool := f.mask.isSome

def Ipv4Source.code : Nat := 11

/-- `Ipv4Destination` (field code 12), identical shape to the source. -/
structure Ipv4Destination where
  value : List Nat
  mask : Option (List Nat)
deriving DecidableEq

def Ipv4Destination.new (value : List Nat) (mask : Option (List Nat)) :
    Ipv4Destination := ⟨value, mask⟩

def Ipv4Destination.parse (l : List Nat) : Option Ipv4Destination := do
  let v ← oxmValue l
  let value ← bytesAt v 0 4
  let hm ← oxmHasMask l
  if hm then
    let m ← bytesAt v 4 4
    some (Ipv4Destination.new value (some m))
  else
    some (Ipv4Destination.new value none)

def Ipv4Destination.value_len (_ : Ipv4Destination) : Nat := 4

def Ipv4Destination.emit_value (f : Ipv4Destination) (buf : List Nat) :
    Option (List Nat) := do
  let b ← writeBytesAt buf 0 f.value
  match f.mask with
  | some m => writeBytesAt b 4 m
  | none => some b

def Ipv4Destination.has_mask (f : Ipv4Destination) : Bool := f.mask.isSome

def Ipv4Destination.code : Nat := 12

/-- `TcpSource(u16)` (field code 13). -/
structure TcpSource where
  value : Nat
deriving DecidableEq

def TcpSource.new (value : Nat) : TcpSource := ⟨value⟩

def TcpSource.parse (l : List Nat) : Option TcpSource := do
  let v ← oxmValue l
  let value ← readBE v 0 2
  some (TcpSource.new value)

def TcpSource.value_len (_ : TcpSource) : Nat := 2

def TcpSource.emit_value (f : TcpSource) (buf : List Nat) : Option (List Nat) :=
  writeBytesAt buf 0 (beBytes 2 f.value)

def TcpSource.has_mask (_ : TcpSource) : Bool := false

def TcpSource.code : Nat := 13

/-- `TcpDestination(u16)` (field code 14). -/
structure TcpDestination where
  value : Nat
deriving DecidableEq

def TcpDestination.new (value : Nat) : TcpDestination := ⟨value⟩

def TcpDestination.parse (l : List Nat) : Option TcpDestination := do
  let v ← oxmValue l
  let value ← readBE v 0 2
  some (TcpDestination.new value)

def TcpDestination.value_len (_ : TcpDestination) : Nat := 2

def TcpDestination.emit_value (f : TcpDestination) (buf : List Nat) : Option (List Nat) :=
  writeBytesAt buf 0 (beBytes 2 f.value)

def TcpDestination.has_mask (_ : TcpDestination) : Bool := false

def TcpDestination.code : Nat := 14

/-- `UdpSource(u16)` (field code 15). -/
structure UdpSource where
  value : Nat
deriving DecidableEq

def UdpSource.new (value : Nat) : UdpSource := ⟨value⟩

def UdpSource.parse (l : List Nat) : Option UdpSource := do
  let v ← oxmValue l
  let value ← readBE v 0 2
  some (UdpSource.new value)

def UdpSource.value_len (_ : UdpSource) : Nat := 2

def UdpSource.emit_value (f : UdpSource) (buf : List Nat) : Option (List Nat) :=
  writeBytesAt buf 0 (beBytes 2 f.value)

def UdpSource.has_mask (_ : UdpSource) : Bool := false

def UdpSource.code : Nat := 15

/-- `UdpDestination(u16)` (field code 16). -/
structure UdpDestination where
  value : Nat
deriving DecidableEq

def UdpDestination.new (value : Nat) : UdpDestination := ⟨value⟩

def UdpDestination.parse (l : List Nat) : Option UdpDestination := do
  let v ← oxmValue l
  let value ← readBE v 0 2
  some (UdpDestination.new value)

def UdpDestination.value_len (_ : UdpDestination) : Nat := 2

def UdpDestination.emit_value (f : UdpDestination) (buf : List Nat) : Option (List Nat) :=
  writeBytesAt buf 0 (beBytes 2 f.value)

def UdpDestination.has_mask (_ : UdpDestination) : Bool := false

def UdpDestination.code : Nat := 16

/-- `SctpSource(u16)` (field code 17). -/
structure SctpSource where
  value : Nat
deriving DecidableEq

def SctpSource.new (value : Nat) : SctpSource := ⟨value⟩

def SctpSource.parse (l : List Nat) : Option SctpSource := do
  let v ← oxmValue l
  let value ← readBE v 0 2
  some (SctpSource.new value)

def SctpSource.value_len (_ : SctpSource) : Nat := 2

def SctpSource.emit_value (f : SctpSource) (buf : List Nat) : Option (List Nat) :=
  writeBytesAt buf 0 (beBytes 2 f.value)

def SctpSource.has_mask (_ : SctpSource) : Bool := false

def SctpSource.code : Nat := 17

/-- `SctpDestination(u16)` (field code 18). -/
structure SctpDestination where
  value : Nat
deriving DecidableEq

def SctpDestination.new (value : Nat) : SctpDestination := ⟨value⟩

def SctpDestination.parse (l : List Nat) : Option SctpDestination := do
  let v ← oxmValue l
  let value ← readBE v 0 2
  some (SctpDestination.new value)

def SctpDestination.value_len (_ : SctpDestination) : Nat := 2

def SctpDestination.emit_value (f : SctpDestination) (buf : List Nat) : Option (List Nat) :=
  writeBytesAt buf 0 (beBytes 2 f.value)

def SctpDestination.has_mask (_ : SctpDestination) : Bool := false

def SctpDestination.code : Nat := 18

/-- `IcmpType(Icmpv4Message)` (field code 19); the `smoltcp` message enum is
modelled by its 8-bit wire value. -/
structure IcmpType where
  value : Nat
deriving DecidableEq

def IcmpType.new (value : Nat) : IcmpType := ⟨value⟩

def IcmpType.parse (l : List Nat) : Option IcmpType := do
  let v ← oxmValue l
  let b ← v[0]?
  some (IcmpType.new b)

def IcmpType.value_len (_ : IcmpType) : Nat := 1

def IcmpType.emit_value (f : IcmpType) (buf : List Nat) : Option (List Nat) :=
  setByte buf 0 f.value

def IcmpType.has_mask (_ : IcmpType) : Bool := false

def IcmpType.code : Nat := 19

/-- `IcmpCode(u8)` (field code 20). -/
structure IcmpCode where
  value : Nat
deriving DecidableEq

def IcmpCode.new (value : Nat) : IcmpCode := ⟨value⟩

def IcmpCode.parse (l : List Nat) : Option IcmpCode := do
  let v ← oxmValue l
  let b ← v[0]?
  some (IcmpCode.new b)

def IcmpCode.value_len (_ : IcmpCode) : Nat := 1

def IcmpCode.emit_value (f : IcmpCode) (buf : List Nat) : Option (List Nat) :=
  setByte buf 0 f.value

def IcmpCode.has_mask (_ : IcmpCode) : Bool := false

def IcmpCode.code : Nat := 20

/-- `ArpOpCode(EthernetProtocol)` (field code 21); the `smoltcp` protocol enum
is modelled by its 16-bit wire value. -/
structure ArpOpCode where
  value : Nat
deriving DecidableEq

def ArpOpCode.new (value : Nat) : ArpOpCode := ⟨value⟩

def ArpOpCode.parse (l : List Nat) : Option ArpOpCode := do
  let v ← oxmValue l
  let value ← readBE v 0 2
  some (ArpOpCode.new value)

def ArpOpCode.value_len (_ : ArpOpCode) : Nat := 2

def ArpOpCode.emit_value (f : ArpOpCode) (buf : List Nat) : Option (List Nat) :=
  writeBytesAt buf 0 (beBytes 2 f.value)

def ArpOpCode.has_mask (_ : ArpOpCode) : Bool := false

def ArpOpCode.code : Nat := 21

/-- `ArpSpa { value: Ipv4Address, mask: Option<..> }` (field code 22). -/
structure ArpSpa where
  value : List Nat
  mask : Option (List Nat)
deriving DecidableEq

def ArpSpa.new (value : List Nat) (mask : Option (List Nat)) : ArpSpa :=
  ⟨value, mask⟩

def ArpSpa.parse (l : List Nat) : Option ArpSpa := do
  let v ← oxmValue l
  let value ← bytesAt v 0 4
  let hm ← oxmHasMask l
  if hm then
    let m ← bytesAt v 4 4
    some (ArpSpa.new value (some m))
  else
    some (ArpSpa.new value none)

def ArpSpa.value_len (_ : ArpSpa) : Nat := 4

def ArpSpa.emit_value (f : ArpSpa) (buf : List Nat) : Option (List Nat) := do
  let b ← writeBytesAt buf 0 f.value
  match f.mask with
  | some m => writeBytesAt b 4 m
  | none => some b

def ArpSpa.has_mask (f : ArpSpa) : Bool := f.mask.isSome

def ArpSpa.code : Nat := 22

/-- `ArpTpa` (field code 23), identical shape to `ArpSpa`. -/
structure ArpTpa where
  value : List Nat
  mask : Option (List Nat)
deriving DecidableEq

def ArpTpa.new (value : List Nat) (mask : Option (List Nat)) : ArpTpa :=
  ⟨value, mask⟩

def ArpTpa.parse (l : List Nat) : Option ArpTpa := do
  let v ← oxmValue l
  let value ← bytesAt v 0 4
  let hm ← oxmHasMask l
  if hm then
    let m ← bytesAt v 4 4
    some (ArpTpa.new value (some m))
  else
    some (ArpTpa.new value none)

def ArpTpa.value_len (_ : ArpTpa) : Nat := 4

def ArpTpa.emit_value (f : ArpTpa) (buf : List Nat) : Option (List Nat) := do
  let b ← writeBytesAt buf 0 f.value
  match f.mask with
  | some m => writeBytesAt b 4 m
  | none => some b

def ArpTpa.has_mask (f : ArpTpa) : Bool := f.mask.isSome

def ArpTpa.code : Nat := 23

/-- `ArpSha { value: EthernetAddress, mask: Option<..> }` (field code 24). -/
structure ArpSha where
  value : List Nat
  mask : Option (List Nat)
deriving DecidableEq

def ArpSha.new (value : List Nat) (mask : Option (List Nat)) : ArpSha :=
  ⟨value, mask⟩

def ArpSha.parse (l : List Nat) : Option ArpSha := do
  let v ← oxmValue l
  let value ← bytesAt v 0 6
  let hm ← oxmHasMask l
  if hm then
    let m ← bytesAt v 6 6
    some (ArpSha.new value (some m))
  else
    some (ArpSha.new value none)

def ArpSha.value_len (f : ArpSha) : Nat := if f.mask.isSome then 12 else 6

/-- `emit_value`: `buf.copy_from_slice(value)` (whole-slice copy), then for a
mask `buf[6..12].copy_from_slice(mask)`. -/
def ArpSha.emit_value (f : ArpSha) (buf : List Nat) : Option (List Nat) := do
  let b ← copyWhole buf f.value
  match f.mask with
  | some m => writeBytesAt b 6 m
  | none => some b

def ArpSha.has_mask (f : ArpSha) : Bool := f.mask.isSome

def ArpSha.code : Nat := 24

/-- `ArpTha` (field code 25), identical shape to `ArpSha`. -/
structure ArpTha where
  value : List Nat
  mask : Option (List Nat)
deriving DecidableEq

def ArpTha.new (value : List Nat) (mask : Option (List Nat)) : ArpTha :=
  ⟨value, mask⟩

def ArpTha.parse (l : List Nat) : Option ArpTha := do
  let v ← oxmValue l
  let value ← bytesAt v 0 6
  let hm ← oxmHasMask l
  if hm then
    let m ← bytesAt v 6 6
    some (ArpTha.new value (some m))
  else
    some (ArpTha.new value none)

def ArpTha.value_len (f : ArpTha) : Nat := if f.mask.isSome then 12 else 6

def ArpTha.emit_value (f : ArpTha) (buf : List Nat) : Option (List Nat) := do
  let b ← copyWhole buf f.value
  match f.mask with
  | some m => writeBytesAt b 6 m
  | none => some b

def ArpTha.has_mask (f : ArpTha) : Bool := f.mask.isSome

def ArpTha.code : Nat := 25

/-- `Ipv6Source { value: [u8; 16], mask: Option<[u8; 16]> }` (field code 26). -/
structure Ipv6Source where
  value : List Nat
  mask : Option (List Nat)
deriving DecidableEq

def Ipv6Source.new (value : List Nat) (mask : Option (List Nat)) : Ipv6Source :=
  ⟨value, mask⟩

def Ipv6Source.parse (l : List Nat) : Option Ipv6Source := do
  let v ← oxmValue l
  let value ← bytesAt v 0 16
  let hm ← oxmHasMask l
  if hm then
    let m ← bytesAt v 16 16
    some (Ipv6Source.new value (some m))
  else
    some (Ipv6Source.new value none)

def Ipv6Source.value_len (f : Ipv6Source) : Nat := if f.mask.isSome then 32 else 16

/-- `emit_value`: `buf.copy_from_slice(&value[..])` (whole-slice copy), then
for a mask `buf[16..].copy_from_slice(&mask[..])`. -/
def Ipv6Source.emit_value (f : Ipv6Source) (buf : List Nat) : Option (List Nat) := do
  let b ← copyWhole buf f.value
  match f.mask with
  | some m => copyTail b 16 m
  | none => some b

def Ipv6Source.has_mask (f : Ipv6Source) : Bool := f.mask.isSome

def Ipv6Source.code : Nat := 26

/-- `Ipv6Destination` (field code 27), identical shape to the source. -/
structure Ipv6Destination where
  value : List Nat
  mask : Option (List Nat)
deriving DecidableEq

def Ipv6Destination.new (value : List Nat) (mask : Option (List Nat)) :
    Ipv6Destination := ⟨value, mask⟩

def Ipv6Destination.parse (l : List Nat) : Option Ipv6Destination := do
  let v ← oxmValue l
  let value ← bytesAt v 0 16
  let hm ← oxmHasMask l
  if hm then
    let m ← bytesAt v 16 16
    some (Ipv6Destination.new value (some m))
  else
    some (Ipv6Destination.new value none)

def Ipv6Destination.value_len (f : Ipv6Destination) : Nat :=
  if f.mask.isSome then 32 else 16

def Ipv6Destination.emit_value (f : Ipv6Destination) (buf : List Nat) :
    Option (List Nat) := do
  let b ← copyWhole buf f.value
  match f.mask with
  | some m => copyTail b 16 m
  | none => some b

def Ipv6Destination.has_mask (f : Ipv6Destination) : Bool := f.mask.isSome

def Ipv6Destination.code : Nat := 27

/-- `Ipv6FlowLabel { value: u32, mask: Option<u32> }` (field code 28): 20
significant bits, truncated with `0x000f_ffff` by `new` and `set_value`. -/
structure Ipv6FlowLabel where
  value : Nat
  mask : Option Nat
deriving DecidableEq

def Ipv6FlowLabel.new (value : Nat) (mask : Option Nat) : Ipv6FlowLabel :=
  ⟨Nat.land value 0x000fffff, mask.map fun m => Nat.land m 0x000fffff⟩

def Ipv6FlowLabel.parse (l : List Nat) : Option Ipv6FlowLabel := do
  let v ← oxmValue l
  let value ← readBE v 0 4
  let hm ← oxmHasMask l
  if hm then
    let m ← readBE v 4 4
    some (Ipv6FlowLabel.new value (some m))
  else
    some (Ipv6FlowLabel.new value none)

/-- `value_len` returns 4 whether or not the mask is present. -/
def Ipv6FlowLabel.value_len (_ : Ipv6FlowLabel) : Nat := 4

def Ipv6FlowLabel.emit_value (f : Ipv6FlowLabel) (buf : List Nat) :
    Option (List Nat) := do
  let b ← writeBytesAt buf 0 (beBytes 4 f.value)
  match f.mask with
  | some m => writeBytesAt b 4 (beBytes 4 m)
  | none => some b

def Ipv6FlowLabel.set_value (f : Ipv6FlowLabel) (value : Nat) : Ipv6FlowLabel :=
  { f with value := Nat.land 0x000fffff value }

def Ipv6FlowLabel.has_mask (f : Ipv6FlowLabel) : Bool := f.mask.isSome

def Ipv6FlowLabel.code : Nat := 28

/-- `set_mask` of the `FlowMatchFieldMaskedRepr` impl for `Ipv6FlowLabel`:
`self.mask = Some(mask)` — it stores the mask without truncation. -/
def Ipv6FlowLabel.set_mask (f : Ipv6FlowLabel) (mask : Nat) : Ipv6FlowLabel :=
  { f with mask := some mask }

def Ipv6FlowLabel.unset_mask (f : Ipv6FlowLabel) : Ipv6FlowLabel :=
  { f with mask := none }

/-- `Icmpv6Type(u8)` (field code 29). -/
structure Icmpv6Type where
  value : Nat
deriving DecidableEq

def Icmpv6Type.new (value : Nat) : Icmpv6Type := ⟨value⟩

def Icmpv6Type.parse (l : List Nat) : Option Icmpv6Type := do
  let v ← oxmValue l
  let b ← v[0]?
  some (Icmpv6Type.new b)

def Icmpv6Type.value_len (_ : Icmpv6Type) : Nat := 1

def Icmpv6Type.emit_value (f : Icmpv6Type) (buf : List Nat) : Option (List Nat) :=
  setByte buf 0 f.value

def Icmpv6Type.has_mask (_ : Icmpv6Type) : Bool := false

def Icmpv6Type.code : Nat := 29

/-- `Icmpv6Code(u8)` (field code 30). -/
structure Icmpv6Code where
  value : Nat
deriving DecidableEq

def Icmpv6Code.new (value : Nat) : Icmpv6Code := ⟨value⟩

def Icmpv6Code.parse (l : List Nat) : Option Icmpv6Code := do
  let v ← oxmValue l
  let b ← v[0]?
  some (Icmpv6Code.new b)

def Icmpv6Code.value_len (_ : Icmpv6Code) : Nat := 1

def Icmpv6Code.emit_value (f : Icmpv6Code) (buf : List Nat) : Option (List Nat) :=
  setByte buf 0 f.value

def Icmpv6Code.has_mask (_ : Icmpv6Code) : Bool := false

def Icmpv6Code.code : Nat := 30

/-- `Ipv6NdTarget([u8; 16])` (field code 31). -/
structure Ipv6NdTarget where
  value : List Nat
deriving DecidableEq

def Ipv6NdTarget.new (value : List Nat) : Ipv6NdTarget := ⟨value⟩

def Ipv6NdTarget.parse (l : List Nat) : Option Ipv6NdTarget := do
  let v ← oxmValue l
  let value ← bytesAt v 0 16
  some (Ipv6NdTarget.new value)

def Ipv6NdTarget.value_len (_ : Ipv6NdTarget) : Nat := 16

def Ipv6NdTarget.emit_value (f : Ipv6NdTarget) (buf : List Nat) : Option (List Nat) :=
  copyWhole buf f.value

def Ipv6NdTarget.has_mask (_ : Ipv6NdTarget) : Bool := false

def Ipv6NdTarget.code : Nat := 31

/-- `Ipv6NdSll(EthernetAddress)` (field code 32). -/
structure Ipv6NdSll where
  value : List Nat
deriving DecidableEq

def Ipv6NdSll.new (value : List Nat) : Ipv6NdSll := ⟨value⟩

def Ipv6NdSll.parse (l : List Nat) : Option Ipv6NdSll := do
  let v ← oxmValue l
  let value ← bytesAt v 0 6
  some (Ipv6NdSll.new value)

def Ipv6NdSll.value_len (_ : Ipv6NdSll) : Nat := 6

def Ipv6NdSll.emit_value (f : Ipv6NdSll) (buf : List Nat) : Option (List Nat) :=
  copyWhole buf f.value

def Ipv6NdSll.has_mask (_ : Ipv6NdSll) : Bool := false

def Ipv6NdSll.code : Nat := 32

/-- `Ipv6NdTll(EthernetAddress)` (field code 33). -/
structure Ipv6NdTll where
  value : List Nat
deriving DecidableEq

def Ipv6NdTll.new (value : List Nat) : Ipv6NdTll := ⟨value⟩

def Ipv6NdTll.parse (l : List Nat) : Option Ipv6NdTll := do
  let v ← oxmValue l
  let value ← bytesAt v 0 6
  some (Ipv6NdTll.new value)

def Ipv6NdTll.value_len (_ : Ipv6NdTll) : Nat := 6

def Ipv6NdTll.emit_value (f : Ipv6NdTll) (buf : List Nat) : Option (List Nat) :=
  copyWhole buf f.value

def Ipv6NdTll.has_mask (_ : Ipv6NdTll) : Bool := false

def Ipv6NdTll.code : Nat := 33

/-- `MplsLabel(u32)` (field code 34): 20 significant bits. -/
structure MplsLabel where
  value : Nat
deriving DecidableEq

def MplsLabel.new (value : Nat) : MplsLabel := ⟨Nat.land value 0x000fffff⟩

def MplsLabel.parse (l : List Nat) : Option MplsLabel := do
  let v ← oxmValue l
  let value ← readBE v 0 4
  some (MplsLabel.new value)

def MplsLabel.value_len (_ : MplsLabel) : Nat := 4

def MplsLabel.emit_value (f : MplsLabel) (buf : List Nat) : Option (List Nat) :=
  writeBytesAt buf 0 (beBytes 4 f.value)

def MplsLabel.set_value (f : MplsLabel) (value : Nat) : MplsLabel :=
  { f with value := Nat.land value 0x000fffff }

def MplsLabel.has_mask (_ : MplsLabel) : Bool := false

def MplsLabel.code : Nat := 34

/-- `MplsTc(u8)` (field code 35): 3 significant bits. -/
structure MplsTc where
  value : Nat
deriving DecidableEq

def MplsTc.new (value : Nat) : MplsTc := ⟨Nat.land value 0b00000111⟩

def MplsTc.parse (l : List Nat) : Option MplsTc := do
  let v ← oxmValue l
  let b ← v[0]?
  some (MplsTc.new b)

def MplsTc.value_len (_ : MplsTc) : Nat := 1

def MplsTc.emit_value (f : MplsTc) (buf : List Nat) : Option (List Nat) :=
  setByte buf 0 f.value

def MplsTc.set_value (f : MplsTc) (value : Nat) : MplsTc :=
  { f with value := Nat.land value 0b00000111 }

def MplsTc.has_mask (_ : MplsTc) : Bool := false

def MplsTc.code : Nat := 35

/-- `MplsBos(u8)` (field code 36): 1 significant bit. -/
structure MplsBos where
  value : Nat
deriving DecidableEq

def MplsBos.new (value : Nat) : MplsBos := ⟨Nat.land value 1⟩

def MplsBos.parse (l : List Nat) : Option MplsBos := do
  let v ← oxmValue l
  let b ← v[0]?
  some (MplsBos.new b)

def MplsBos.value_len (_ : MplsBos) : Nat := 1

def MplsBos.emit_value (f : MplsBos) (buf : List Nat) : Option (List Nat) :=
  setByte buf 0 f.value

def MplsBos.set_value (f : MplsBos) (value : Nat) : MplsBos :=
  { f with value := Nat.land value 1 }

def MplsBos.has_mask (_ : MplsBos) : Bool := false

def MplsBos.code : Nat := 36

/-- `PbbUca(bool)` (field code 41). -/
structure PbbUca where
  value : Bool
deriving DecidableEq

def PbbUca.new (value : Bool) : PbbUca := ⟨value⟩

def PbbUca.parse (l : List Nat) : Option PbbUca := do
  let v ← oxmValue l
  let b ← v[0]?
  some (PbbUca.new (Nat.land b 1 == 1))

def PbbUca.value_len (_ : PbbUca) : Nat := 1

def PbbUca.emit_value (f : PbbUca) (buf : List Nat) : Option (List Nat) :=
  setByte buf 0 (if f.value then 1 else 0)

def PbbUca.has_mask (_ : PbbUca) : Bool := false

def PbbUca.code : Nat := 41

/-- `PbbIsid { value: u32, mask: Option<u32> }` (field code 37): 24
significant bits packed big-endian into 3 bytes. -/
structure PbbIsid where
  value : Nat
  mask : Option Nat
deriving DecidableEq

def PbbIsid.new (value : Nat) (mask : Option Nat) : PbbIsid :=
  ⟨Nat.land value 0x00ffffff, mask.map fun m => Nat.land m 0x00ffffff⟩

/-- `parse` reassembles `(bytes[0] << 16) + (bytes[1] << 8) + bytes[2]` and,
when masked, the same from bytes 3..6. -/
def PbbIsid.parse (l : List Nat) : Option PbbIsid := do
  let v ← oxmValue l
  let b0 ← v[0]?
  let b1 ← v[1]?
  let b2 ← v[2]?
  let value := b0 <<< 16 + b1 <<< 8 + b2
  let hm ← oxmHasMask l
  if hm then
    let b3 ← v[3]?
    let b4 ← v[4]?
    let b5 ← v[5]?
    some (PbbIsid.new value (some (b3 <<< 16 + b4 <<< 8 + b5)))
  else
    some (PbbIsid.new value none)

/-- `value_len` returns 3 whether or not the mask is present. -/
def PbbIsid.value_len (_ : PbbIsid) : Nat := 3

def PbbIsid.emit_value (f : PbbIsid) (buf : List Nat) : Option (List Nat) := do
  let b ← setByte buf 0 (Nat.land (f.value >>> 16) 0x000000ff)
  let b ← setByte b 1 (Nat.land (f.value >>> 8) 0x000000ff)
  let b ← setByte b 2 (Nat.land f.value 0x000000ff)
  match f.mask with
  | some m => do
    let b ← setByte b 3 (Nat.land (m >>> 16) 0x000000ff)
    let b ← setByte b 4 (Nat.land (m >>> 8) 0x000000ff)
    setByte b 5 (Nat.land m 0x000000ff)
  | none => some b

def PbbIsid.set_value (f : PbbIsid) (value : Nat) : PbbIsid :=
  { f with value := Nat.land 0x00ffffff value }

def PbbIsid.has_mask (f : PbbIsid) : Bool := f.mask.isSome

def PbbIsid.code : Nat := 37

def PbbIsid.set_mask (f : PbbIsid) (mask : Nat) : PbbIsid :=
  { f with mask := some (Nat.land mask 0x00ffffff) }

def PbbIsid.unset_mask (f : PbbIsid) : PbbIsid := { f with mask := none }

/-- `TcpFlags { value: u16, mask: Option<u16> }` (field code 42): 12
significant bits, truncated with `0x0fff` at construction and mutation. -/
structure TcpFlags where
  value : Nat
  mask : Option Nat
deriving DecidableEq

def TcpFlags.new (value : Nat) (mask : Option Nat) : TcpFlags :=
  ⟨Nat.land value 0x0fff, mask.map fun m => Nat.land m 0x0fff⟩

def TcpFlags.parse (l : List Nat) : Option TcpFlags := do
  let v ← oxmValue l
  let value ← readBE v 0 2
  let hm ← oxmHasMask l
  if hm then
    let m ← readBE v 2 2
    some (TcpFlags.new value (some m))
  else
    some (TcpFlags.new value none)

/-- `value_len` returns 2 whether or not the mask is present. -/
def TcpFlags.value_len (_ : TcpFlags) : Nat := 2

def TcpFlags.emit_value (f : TcpFlags) (buf : List Nat) : Option (List Nat) := do
  let b ← writeBytesAt buf 0 (beBytes 2 f.value)
  match f.mask with
  | some m => writeBytesAt b 2 (beBytes 2 m)
  | none => some b

def TcpFlags.set_value (f : TcpFlags) (value : Nat) : TcpFlags :=
  { f with value := Nat.land value 0x0fff }

def TcpFlags.has_mask (f : TcpFlags) : Bool := f.mask.isSome

def TcpFlags.code : Nat := 42

def TcpFlags.set_mask (f : TcpFlags) (mask : Nat) : TcpFlags :=
  { f with mask := some (Nat.land mask 0x0fff) }

def TcpFlags.unset_mask (f : TcpFlags) : TcpFlags := { f with mask := none }

/-- `Ipv6ExtensionHeader { value: u16, mask: Option<u16> }` (field code 39):
9 significant bits, truncated with `0x1ff` at construction and mutation. -/
structure Ipv6ExtensionHeader where
  value : Nat
  mask : Option Nat
deriving DecidableEq

def Ipv6ExtensionHeader.new (value : Nat) (mask : Option Nat) : Ipv6ExtensionHeader :=
  ⟨Nat.land value 0x01ff, mask.map fun m => Nat.land m 0x1ff⟩

def Ipv6ExtensionHeader.parse (l : List Nat) : Option Ipv6ExtensionHeader := do
  let v ← oxmValue l
  let value ← readBE v 0 2
  let hm ← oxmHasMask l
  if hm then
    let m ← readBE v 2 2
    some (Ipv6ExtensionHeader.new value (some m))
  else
    some (Ipv6ExtensionHeader.new value none)

/-- `value_len` returns 2 whether or not the mask is present. -/
def Ipv6ExtensionHeader.value_len (_ : Ipv6ExtensionHeader) : Nat := 2

def Ipv6ExtensionHeader.emit_value (f : Ipv6ExtensionHeader) (buf : List Nat) :
    Option (List Nat) := do
  let b ← writeBytesAt buf 0 (beBytes 2 f.value)
  match f.mask with
  | some m => writeBytesAt b 2 (beBytes 2 m)
  | none => some b

def Ipv6ExtensionHeader.set_value (f : Ipv6ExtensionHeader) (value : Nat) :
    Ipv6ExtensionHeader := { f with value := Nat.land 0x1ff value }

def Ipv6ExtensionHeader.has_mask (f : Ipv6ExtensionHeader) : Bool := f.mask.isSome

def Ipv6ExtensionHeader.code : Nat := 39

def Ipv6ExtensionHeader.set_mask (f : Ipv6ExtensionHeader) (mask : Nat) :
    Ipv6ExtensionHeader := { f with mask := some (Nat.land mask 0x1ff) }

def Ipv6ExtensionHeader.unset_mask (f : Ipv6ExtensionHeader) : Ipv6ExtensionHeader :=
  { f with mask := none }

/-! ## `src/oxm/fields/mod.rs`: the `FlowMatchField` tagged union and its
field-id dispatch. The enum has 43 variants; there is none for
`EthernetType` (code 5). -/

inductive FlowMatchField where
  | inPort : InPort → FlowMatchField
  | inPhysicalPort : InPhysicalPort → FlowMatchField
  | metadata : Metadata → FlowMatchField
  | ethernetDestination : EthernetDestination → FlowMatchField
  | ethernetSource : EthernetSource → FlowMatchField
  | vlanId : VlanId → FlowMatchField
  | vlanPriority : VlanPriority → FlowMatchField
  | ipDscp : IpDscp → FlowMatchField
  | ipEcn : IpEcn → FlowMatchField
  | ipProtocol : IpProtocol → FlowMatchField
  | ipv4Source : Ipv4Source → FlowMatchField
  | ipv4Destination : Ipv4Destination → FlowMatchField
  | tcpSource : TcpSource → FlowMatchField
  | tcpDestination : TcpDestination → FlowMatchField
  | udpSource : UdpSource → FlowMatchField
  | udpDestination : UdpDestination → FlowMatchField
  | sctpSource : SctpSource → FlowMatchField
  | sctpDestination : SctpDestination → FlowMatchField
  | icmpType : IcmpType → FlowMatchField
  | icmpCode : IcmpCode → FlowMatchField
  | arpOpCode : ArpOpCode → FlowMatchField
  | arpSpa : ArpSpa → FlowMatchField
  | arpTpa : ArpTpa → FlowMatchField
  | arpSha : ArpSha → FlowMatchField
  | arpTha : ArpTha → FlowMatchField
  | ipv6Source : Ipv6Source → FlowMatchField
  | ipv6Destination : Ipv6Destination → FlowMatchField
  | ipv6FlowLabel : Ipv6FlowLabel → FlowMatchField
  | icmpv6Type : Icmpv6Type → FlowMatchField
  | icmpv6Code : Icmpv6Code → FlowMatchField
  | ipv6NdTarget : Ipv6NdTarget → FlowMatchField
  | ipv6NdSll : Ipv6NdSll → FlowMatchField
  | ipv6NdTll : Ipv6NdTll → FlowMatchField
  | mplsLabel : MplsLabel → FlowMatchField
  | mplsTc : MplsTc → FlowMatchField
  | mplsBos : MplsBos → FlowMatchField
  | pbbUca : PbbUca → FlowMatchField
  | tcpFlags : TcpFlags → FlowMatchField
  | actionSetOutput : ActionSetOutput → FlowMatchField
  | pbbIsid : PbbIsid → FlowMatchField
  | tunnelId : TunnelId → FlowMatchField
  | ipv6ExtensionHeader : Ipv6ExtensionHeader → FlowMatchField
  | packetType : PacketType → FlowMatchField
deriving DecidableEq

/-- `FlowMatchField::parse`: dispatch on `packet.field()` over the constants
of `src/oxm/fields/consts.rs`; any other id yields `Err(BadOxmField)`. Note
the dispatch has no arm for `consts::ETHERNET_TYPE` (5), nor for the
unassigned id 40. -/
def flowMatchFieldParse (l : List Nat) : Outcome FlowMatchField :=
  match l[2]? with
  | none => .panicked
  | some b =>
    match (Nat.land b 0xfe) >>> 1 with
    | 0 => (liftOpt (InPort.parse l)).map .inPort
    | 1 => (liftOpt (InPhysicalPort.parse l)).map .inPhysicalPort
    | 2 => (liftOpt (Metadata.parse l)).map .metadata
    | 3 => (liftOpt (EthernetDestination.parse l)).map .ethernetDestination
    | 4 => (liftOpt (EthernetSource.parse l)).map .ethernetSource
    | 6 => (liftOpt (VlanId.parse l)).map .vlanId
    | 7 => (liftOpt (VlanPriority.parse l)).map .vlanPriority
    | 8 => (liftOpt (IpDscp.parse l)).map .ipDscp
    | 9 => (liftOpt (IpEcn.parse l)).map .ipEcn
    | 10 => (liftOpt (IpProtocol.parse l)).map .ipProtocol
    | 11 => (liftOpt (Ipv4Source.parse l)).map .ipv4Source
    | 12 => (liftOpt (Ipv4Destination.parse l)).map .ipv4Destination
    | 13 => (liftOpt (TcpSource.parse l)).map .tcpSource
    | 14 => (liftOpt (TcpDestination.parse l)).map .tcpDestination
    | 15 => (liftOpt (UdpSource.parse l)).map .udpSource
    | 16 => (liftOpt (UdpDestination.parse l)).map .udpDestination
    | 17 => (liftOpt (SctpSource.parse l)).map .sctpSource
    | 18 => (liftOpt (SctpDestination.parse l)).map .sctpDestination
    | 19 => (liftOpt (IcmpType.parse l)).map .icmpType
    | 20 => (liftOpt (IcmpCode.parse l)).map .icmpCode
    | 21 => (liftOpt (ArpOpCode.parse l)).map .arpOpCode
    | 22 => (liftOpt (ArpSpa.parse l)).map .arpSpa
    | 23 => (liftOpt (ArpTpa.parse l)).map .arpTpa
    | 24 => (liftOpt (ArpSha.parse l)).map .arpSha
    | 25 => (liftOpt (ArpTha.parse l)).map .arpTha
    | 26 => (liftOpt (Ipv6Source.parse l)).map .ipv6Source
    | 27 => (liftOpt (Ipv6Destination.parse l)).map .ipv6Destination
    | 28 => (liftOpt (Ipv6FlowLabel.parse l)).map .ipv6FlowLabel
    | 29 => (liftOpt (Icmpv6Type.parse l)).map .icmpv6Type
    | 30 => (liftOpt (Icmpv6Code.parse l)).map .icmpv6Code
    | 31 => (liftOpt (Ipv6NdTarget.parse l)).map .ipv6NdTarget
    | 32 => (liftOpt (Ipv6NdSll.parse l)).map .ipv6NdSll
    | 33 => (liftOpt (Ipv6NdTll.parse l)).map .ipv6NdTll
    | 34 => (liftOpt (MplsLabel.parse l)).map .mplsLabel
    | 35 => (liftOpt (MplsTc.parse l)).map .mplsTc
    | 36 => (liftOpt (MplsBos.parse l)).map .mplsBos
    | 37 => (liftOpt (PbbIsid.parse l)).map .pbbIsid
    | 38 => (liftOpt (TunnelId.parse l)).map .tunnelId
    | 39 => (liftOpt (Ipv6ExtensionHeader.parse l)).map .ipv6ExtensionHeader
    | 41 => (liftOpt (PbbUca.parse l)).map .pbbUca
    | 42 => (liftOpt (TcpFlags.parse l)).map .tcpFlags
    | 43 => (liftOpt (ActionSetOutput.parse l)).map .actionSetOutput
    | 44 => (liftOpt (PacketType.parse l)).map .packetType
    | _ => .err .badOxmField

/-- Per-variant forwarding of `value_len`. -/
def fmfValueLen : FlowMatchField → Nat
  | .inPort f => f.value_len
  | .inPhysicalPort f => f.value_len
  | .metadata f => f.value_len
  | .ethernetDestination f => f.value_len
  | .ethernetSource f => f.value_len
  | .vlanId f => f.value_len
  | .vlanPriority f => f.value_len
  | .ipDscp f => f.value_len
  | .ipEcn f => f.value_len
  | .ipProtocol f => f.value_len
  | .ipv4Source f => f.value_len
  | .ipv4Destination f => f.value_len
  | .tcpSource f => f.value_len
  | .tcpDestination f => f.value_len
  | .udpSource f => f.value_len
  | .udpDestination f => f.value_len
  | .sctpSource f => f.value_len
  | .sctpDestination f => f.value_len
  | .icmpType f => f.value_len
  | .icmpCode f => f.value_len
  | .arpOpCode f => f.value_len
  | .arpSpa f => f.value_len
  | .arpTpa f => f.value_len
  | .arpSha f => f.value_len
  | .arpTha f => f.value_len
  | .ipv6Source f => f.value_len
  | .ipv6Destination f => f.value_len
  | .ipv6FlowLabel f => f.value_len
  | .icmpv6Type f => f.value_len
  | .icmpv6Code f => f.value_len
  | .ipv6NdTarget f => f.value_len
  | .ipv6NdSll f => f.value_len
  | .ipv6NdTll f => f.value_len
  | .mplsLabel f => f.value_len
  | .mplsTc f => f.value_len
  | .mplsBos f => f.value_len
  | .pbbUca f => f.value_len
  | .tcpFlags f => f.value_len
  | .actionSetOutput f => f.value_len
  | .pbbIsid f => f.value_len
  | .tunnelId f => f.value_len
  | .ipv6ExtensionHeader f => f.value_len
  | .packetType f => f.value_len

/-- Per-variant forwarding of `has_mask`. -/
def fmfHasMask : FlowMatchField → Bool
  | .inPort f => f.has_mask
  | .inPhysicalPort f => f.has_mask
  | .metadata f => f.has_mask
  | .ethernetDestination f => f.has_mask
  | .ethernetSource f => f.has_mask
  | .vlanId f => f.has_mask
  | .vlanPriority f => f.has_mask
  | .ipDscp f => f.has_mask
  | .ipEcn f => f.has_mask
  | .ipProtocol f => f.has_mask
  | .ipv4Source f => f.has_mask
  | .ipv4Destination f => f.has_mask
  | .tcpSource f => f.has_mask
  | .tcpDestination f => f.has_mask
  | .udpSource f => f.has_mask
  | .udpDestination f => f.has_mask
  | .sctpSource f => f.has_mask
  | .sctpDestination f => f.has_mask
  | .icmpType f => f.has_mask
  | .icmpCode f => f.has_mask
  | .arpOpCode f => f.has_mask
  | .arpSpa f => f.has_mask
  | .arpTpa f => f.has_mask
  | .arpSha f => f.has_mask
  | .arpTha f => f.has_mask
  | .ipv6Source f => f.has_mask
  | .ipv6Destination f => f.has_mask
  | .ipv6FlowLabel f => f.has_mask
  | .icmpv6Type f => f.has_mask
  | .icmpv6Code f => f.has_mask
  | .ipv6NdTarget f => f.has_mask
  | .ipv6NdSll f => f.has_mask
  | .ipv6NdTll f => f.has_mask
  | .mplsLabel f => f.has_mask
  | .mplsTc f => f.has_mask
  | .mplsBos f => f.has_mask
  | .pbbUca f => f.has_mask
  | .tcpFlags f => f.has_mask
  | .actionSetOutput f => f.has_mask
  | .pbbIsid f => f.has_mask
  | .tunnelId f => f.has_mask
  | .ipv6ExtensionHeader f => f.has_mask
  | .packetType f => f.has_mask

/-- Per-variant `Self::code()` of the generic `emit`. -/
def fmfCode : FlowMatchField → Nat
  | .inPort _ => InPort.code
  | .inPhysicalPort _ => InPhysicalPort.code
  | .metadata _ => Metadata.code
  | .ethernetDestination _ => EthernetDestination.code
  | .ethernetSource _ => EthernetSource.code
  | .vlanId _ => VlanId.code
  | .vlanPriority _ => VlanPriority.code
  | .ipDscp _ => IpDscp.code
  | .ipEcn _ => IpEcn.code
  | .ipProtocol _ => IpProtocol.code
  | .ipv4Source _ => Ipv4Source.code
  | .ipv4Destination _ => Ipv4Destination.code
  | .tcpSource _ => TcpSource.code
  | .tcpDestination _ => TcpDestination.code
  | .udpSource _ => UdpSource.code
  | .udpDestination _ => UdpDestination.code
  | .sctpSource _ => SctpSource.code
  | .sctpDestination _ => SctpDestination.code
  | .icmpType _ => IcmpType.code
  | .icmpCode _ => IcmpCode.code
  | .arpOpCode _ => ArpOpCode.code
  | .arpSpa _ => ArpSpa.code
  | .arpTpa _ => ArpTpa.code
  | .arpSha _ => ArpSha.code
  | .arpTha _ => ArpTha.code
  | .ipv6Source _ => Ipv6Source.code
  | .ipv6Destination _ => Ipv6Destination.code
  | .ipv6FlowLabel _ => Ipv6FlowLabel.code
  | .icmpv6Type _ => Icmpv6Type.code
  | .icmpv6Code _ => Icmpv6Code.code
  | .ipv6NdTarget _ => Ipv6NdTarget.code
  | .ipv6NdSll _ => Ipv6NdSll.code
  | .ipv6NdTll _ => Ipv6NdTll.code
  | .mplsLabel _ => MplsLabel.code
  | .mplsTc _ => MplsTc.code
  | .mplsBos _ => MplsBos.code
  | .pbbUca _ => PbbUca.code
  | .tcpFlags _ => TcpFlags.code
  | .actionSetOutput _ => ActionSetOutput.code
  | .pbbIsid _ => PbbIsid.code
  | .tunnelId _ => TunnelId.code
  | .ipv6ExtensionHeader _ => Ipv6ExtensionHeader.code
  | .packetType _ => PacketType.code

/-- Per-variant forwarding of `emit_value`. -/
def fmfEmitValue : FlowMatchField → List Nat → Option (List Nat)
  | .inPort f => f.emit_value
  | .inPhysicalPort f => f.emit_value
  | .metadata f => f.emit_value
  | .ethernetDestination f => f.emit_value
  | .ethernetSource f => f.emit_value
  | .vlanId f => f.emit_value
  | .vlanPriority f => f.emit_value
  | .ipDscp f => f.emit_value
  | .ipEcn f => f.emit_value
  | .ipProtocol f => f.emit_value
  | .ipv4Source f => f.emit_value
  | .ipv4Destination f => f.emit_value
  | .tcpSource f => f.emit_value
  | .tcpDestination f => f.emit_value
  | .udpSource f => f.emit_value
  | .udpDestination f => f.emit_value
  | .sctpSource f => f.emit_value
  | .sctpDestination f => f.emit_value
  | .icmpType f => f.emit_value
  | .icmpCode f => f.emit_value
  | .arpOpCode f => f.emit_value
  | .arpSpa f => f.emit_value
  | .arpTpa f => f.emit_value
  | .arpSha f => f.emit_value
  | .arpTha f => f.emit_value
  | .ipv6Source f => f.emit_value
  | .ipv6Destination f => f.emit_value
  | .ipv6FlowLabel f => f.emit_value
  | .icmpv6Type f => f.emit_value
  | .icmpv6Code f => f.emit_value
  | .ipv6NdTarget f => f.emit_value
  | .ipv6NdSll f => f.emit_value
  | .ipv6NdTll f => f.emit_value
  | .mplsLabel f => f.emit_value
  | .mplsTc f => f.emit_value
  | .mplsBos f => f.emit_value
  | .pbbUca f => f.emit_value
  | .tcpFlags f => f.emit_value
  | .actionSetOutput f => f.emit_value
  | .pbbIsid f => f.emit_value
  | .tunnelId f => f.emit_value
  | .ipv6ExtensionHeader f => f.emit_value
  | .packetType f => f.emit_value

/-- `FlowMatchFieldRepr::buffer_len`: `value_len() + OXM_HEADER_LEN` with
`OXM_HEADER_LEN = 4`. -/
def fmfBufferLen (f : FlowMatchField) : Nat := fmfValueLen f + 4

/-- The provided `FlowMatchFieldRepr::emit`: check `buffer_len() > buf.len()`
(`Err(Exhausted)`), then write class `0x8000`, the field code, the length
byte (`value_len() as u8`), the mask bit, and finally `emit_value` into
`value_mut()` (`&mut buf[4..]`). -/
def fmfEmit (f : FlowMatchField) (buf : List Nat) : Outcome (List Nat) :=
  if fmfBufferLen f > buf.length then .err .exhausted
  else
    liftOpt (do
      let b ← writeBytesAt buf 0 (beBytes 2 0x8000)
      let b ← setFieldByte b (fmfCode f)
      let b ← writeBytesAt b 3 [fmfValueLen f % 256]
      let b ← if fmfHasMask f then setMaskBit b else unsetMaskBit b
      if 4 ≤ b.length then do
        let v ← fmfEmitValue f (b.drop 4)
        some (b.take 4 ++ v)
      else none)

/-! ## `src/oxm/mod.rs`: class constants, `PacketRegisters`, and the
`Oxm<E>` class dispatch -/

/-- `CLASS_NXM0`. -/
def CLASS_NXM0 : Nat := 0x0000
/-- `CLASS_NXM1`. -/
def CLASS_NXM1 : Nat := 0x0001
/-- `CLASS_OPEN_FLOW_BASIC`. -/
def CLASS_OPEN_FLOW_BASIC : Nat := 0x8000
/-- `CLASS_PACKET_REGISTERS`. -/
def CLASS_PACKET_REGISTERS : Nat := 0x8001
/-- `CLASS_EXPERIMENTER`. -/
def CLASS_EXPERIMENTER : Nat := 0xFFFF

/-- `PacketRegisters { field: u8, value: u64, mask: Option<u64> }`. -/
structure PacketRegisters where
  field : Nat
  value : Nat
  mask : Option Nat
deriving DecidableEq

/-- `PacketRegisters::buffer_len`: 20 with a mask, 12 without. -/
def PacketRegisters.buffer_len (p : PacketRegisters) : Nat :=
  if p.mask.isSome then 20 else 12

/-- `PacketRegisters::parse`: reject a length field other than 8 or 16 with
`Err(Malformed)`, then read the 64-bit value from `value()[0..8]` and, when
the mask bit is set, the 64-bit mask from `value()[8..16]`. -/
def packetRegistersParse (l : List Nat) : Outcome PacketRegisters :=
  match l[3]? with
  | none => .panicked
  | some d =>
    if d ≠ 8 ∧ d ≠ 16 then .err .malformed
    else
      liftOpt (do
        let v ← oxmValue l
        let value ← readBE v 0 8
        let hm ← oxmHasMask l
        let mask ← if hm then (readBE v 8 8).map some else some none
        let f ← oxmFieldBits l
        some (PacketRegisters.mk f value mask))

/-- `PacketRegisters::emit`: check `buffer_len() > buf.len()`
(`Err(Exhausted)`), then write class `0x8001`, the field byte, the length
byte — `set_length(self.buffer_len() as u8)`, i.e. 12 or 20 — the mask bit,
and the value and optional mask into `value_mut()`. -/
def packetRegistersEmit (p : PacketRegisters) (buf : List Nat) : Outcome (List Nat) :=
  if p.buffer_len > buf.length then .err .exhausted
  else
    liftOpt (do
      let b ← writeBytesAt buf 0 (beBytes 2 CLASS_PACKET_REGISTERS)
      let b ← setFieldByte b p.field
      let b ← writeBytesAt b 3 [p.buffer_len % 256]
      let b ← if p.mask.isSome then setMaskBit b else unsetMaskBit b
      if 4 ≤ b.length then do
        let v := b.drop 4
        let v ← writeBytesAt v 0 (beBytes 8 p.value)
        let v ← match p.mask with
                | some m => writeBytesAt v 8 (beBytes 8 m)
                | none => some v
        some (b.take 4 ++ v)
      else none)

/-- The `Repr` capability of `src/lib.rs` for the experimenter type
parameter `E`: `parse`, `buffer_len`, `emit`. -/
structure ReprImpl (ε : Type) where
  parse : List Nat → Outcome ε
  buffer_len : ε → Nat
  emit : ε → List Nat → Outcome (List Nat)

/-- The `Oxm<E>` tagged union. -/
inductive Oxm (ε : Type) where
  | flowMatchField : FlowMatchField → Oxm ε
  | experimenter : ε → Oxm ε
  | packetRegisters : PacketRegisters → Oxm ε
deriving DecidableEq

/-- `Oxm::parse`: `Packet::new_checked` (i.e. `check_len`), then dispatch on
`packet.class()`: `0x8000` to `FlowMatchField::parse`, `0x8001` to
`PacketRegisters::parse`, `0xFFFF` to `E::parse` over the whole buffer,
`0x0000`/`0x0001` to `Err(UnsupportedOxmClass)`, anything else to
`Err(BadOxmClass)`. -/
def oxmParse (R : ReprImpl ε) (l : List Nat) : Outcome (Oxm ε) :=
  match oxmCheckLen l with
  | .err e => .err e
  | .panicked => .panicked
  | .ok _ =>
    match oxmClassField l with
    | none => .panicked
    | some c =>
      if c = CLASS_OPEN_FLOW_BASIC then (flowMatchFieldParse l).map .flowMatchField
      else if c = CLASS_PACKET_REGISTERS then (packetRegistersParse l).map .packetRegisters
      else if c = CLASS_EXPERIMENTER then (R.parse l).map .experimenter
      else if c = CLASS_NXM0 ∨ c = CLASS_NXM1 then .err .unsupportedOxmClass
      else .err .badOxmClass

/-- `Oxm::buffer_len`: per-variant forwarding. -/
def oxmBufferLen (R : ReprImpl ε) : Oxm ε → Nat
  | .flowMatchField f => fmfBufferLen f
  | .experimenter e => R.buffer_len e
  | .packetRegisters p => p.buffer_len

/-- `Oxm::emit`: per-variant forwarding. -/
def oxmEmit (R : ReprImpl ε) : Oxm ε → List Nat → Outcome (List Nat)
  | .flowMatchField f => fmfEmit f
  | .experimenter e => R.emit e
  | .packetRegisters p => packetRegistersEmit p

/-! ## `src/oxm/flow_match.rs`: the flow-match aggregate

Its `field` module: `MATCH_TYPE = 0..2`, `LENGTH = 2..4`,
`OXM_FIELDS(length) = 4..length`, `PADDING(length) = length..(((length+7)/8)*8)`.

`MatchType` is produced by the `enum_with_unknown!` macro of the crate's
`macros` module, which `src/lib.rs` declares but whose file is not present in
the tree; per the spec the OXM discriminator is the wire value 1
(`MatchType::OXM = 1`, every other value is unknown), so the match-type field
is modelled by its numeric value compared against 1. -/

/-- `field::PADDING(length).end`: `((length + 7) / 8) * 8`. -/
def roundUp8 (n : Nat) : Nat := ((n + 7) / 8) * 8

/-- Flow-match `Packet::match_type()`: `read_u16(&inner[0..2])`. -/
def fmMatchTypeField (l : List Nat) : Option Nat := readBE l 0 2

/-- Flow-match `Packet::length()`: `read_u16(&inner[2..4])`. -/
def fmLengthField (l : List Nat) : Option Nat := readBE l 2 2

/-- Flow-match `Packet::check_len()`: `Err(Exhausted)` when the buffer is
shorter than `field::LENGTH.end = 4`, or shorter than
`field::PADDING(length).end`. -/
def fmCheckLen (l : List Nat) : Outcome Unit :=
  if l.length < 4 then .err .exhausted
  else
    match fmLengthField l with
    | none => .panicked
    | some L => if l.length < roundUp8 L then .err .exhausted else .ok ()

/-- The `loop` of flow-match `Packet::oxm_fields::<E>()`: parse an `Oxm` at
the current offset; on success advance by its `buffer_len()` (the slice
`&bytes[offset..]` panics when the new offset passes the end), on
`Err(Truncated)` return the accumulated fields (`Ok`), on any other error
propagate it. The loop is driven by fuel; exhausted fuel models the
divergence possible when an element reports `buffer_len() = 0`. -/
def oxmFieldsLoop (R : ReprImpl ε) : Nat → List Nat → List (Oxm ε) → Outcome (List (Oxm ε))
  | 0, _, _ => .panicked
  | fuel + 1, rem, acc =>
    match oxmParse R rem with
    | .ok r =>
      if oxmBufferLen R r ≤ rem.length then
        oxmFieldsLoop R fuel (rem.drop (oxmBufferLen R r)) (acc ++ [r])
      else .panicked
    | .err .truncated => .ok acc
    | .err e => .err e
    | .panicked => .panicked

/-- `PacketRepr::parse` (`FlowMatch::parse`): `Packet::new_checked`, then
require `match_type()` to be the OXM discriminator (else
`Err(BadMatchType)`), then run `oxm_fields()` over the region
`&inner[4..length]` (whose slicing panics when `length < 4` or
`length > len`). The representation is the parsed element list (the
`PacketRepr` newtype over `Vec<Oxm<E>>`). -/
def flowMatchParse (R : ReprImpl ε) (l : List Nat) : Outcome (List (Oxm ε)) :=
  match fmCheckLen l with
  | .err e => .err e
  | .panicked => .panicked
  | .ok _ =>
    match fmMatchTypeField l with
    | none => .panicked
    | some mt =>
      if mt = 1 then
        match fmLengthField l with
        | none => .panicked
        | some L =>
          if 4 ≤ L ∧ L ≤ l.length then
            let region := (l.drop 4).take (L - 4)
            oxmFieldsLoop R (region.length + 1) region []
          else .panicked
      else .err .badMatchType

/-- `PacketRepr::fields_len`: fold of the elements' `buffer_len()`. -/
def flowMatchFieldsLen (R : ReprImpl ε) (fs : List (Oxm ε)) : Nat :=
  fs.foldl (fun acc f => acc + oxmBufferLen R f) 0

/-- `PacketRepr::buffer_len`: `field::PADDING(self.fields_len()).end`, i.e.
the fields length alone rounded up to a multiple of 8. -/
def flowMatchBufferLen (R : ReprImpl ε) (fs : List (Oxm ε)) : Nat :=
  roundUp8 (flowMatchFieldsLen R fs)

/-- The `for` loop of `Packet::set_oxm_fields`: emit each field into
`&mut buf[offset..offset + field.buffer_len()]` of the fields region (the
slice panics when it passes the region's end), propagating emit errors. -/
def setOxmFieldsLoop (R : ReprImpl ε) :
    List (Oxm ε) → List Nat → Nat → Outcome (List Nat)
  | [], region, _ => .ok region
  | f :: rest, region, offset =>
    let bl := oxmBufferLen R f
    if offset + bl ≤ region.length then
      match oxmEmit R f ((region.drop offset).take bl) with
      | .ok chunk =>
        setOxmFieldsLoop R rest
          (region.take offset ++ chunk ++ region.drop (offset + bl)) (offset + bl)
      | .err e => .err e
      | .panicked => .panicked
    else .panicked

/-- `PacketRepr::emit` (`FlowMatch::emit`): with no buffer-size precheck,
write the match type (1) at bytes 0..2 and `4 + fields_len()` (as `u16`) at
bytes 2..4, then `set_oxm_fields` over `&mut inner[4..length]` (re-reading
the just-written length field), then `set_padding` zeroes
`inner[length..round_up_8(length)]`. -/
def flowMatchEmit (R : ReprImpl ε) (fs : List (Oxm ε)) (buf : List Nat) :
    Outcome (List Nat) :=
  match writeBytesAt buf 0 (beBytes 2 1) with
  | none => .panicked
  | some b1 =>
    match writeBytesAt b1 2 (beBytes 2 ((4 + flowMatchFieldsLen R fs) % 65536)) with
    | none => .panicked
    | some b2 =>
      match fmLengthField b2 with
      | none => .panicked
      | some L =>
        if 4 ≤ L ∧ L ≤ b2.length then
          match setOxmFieldsLoop R fs ((b2.drop 4).take (L - 4)) 0 with
          | .err e => .err e
          | .panicked => .panicked
          | .ok region =>
            let b3 := b2.take 4 ++ region ++ b2.drop L
            match fmLengthField b3 with
            | none => .panicked
            | some L2 =>
              if roundUp8 L2 ≤ b3.length then
                .ok (b3.take L2 ++ List.replicate (roundUp8 L2 - L2) 0
                      ++ b3.drop (roundUp8 L2))
              else .panicked
        else .panicked

/-! ## Concrete experimenter instantiation and helper lemmas

The repository's tests instantiate the experimenter parameter `E` with a
dummy type whose `Repr` methods are `unreachable!()`; `testExperimenter`
mirrors it (panicking parse and emit; `buffer_len` is given the inert value
0, which no theorem below reaches). -/

def testExperimenter : ReprImpl Unit :=
  ⟨fun _ => .panicked, fun _ => 0, fun _ _ => .panicked⟩

theorem Outcome.map_eq_err {α β : Type} {x : Outcome α} {f : α → β} {e : Error} :
    x.map f = .err e ↔ x = .err e := by
  cases x <;> simp [Outcome.map]

theorem liftOpt_ne_err {α : Type} (o : Option α) (e : Error) : liftOpt o ≠ .err e := by
  cases o <;> simp [liftOpt]

/-- Errors of `FlowMatchField::parse` are exactly `BadOxmField`: every
dispatch arm wraps an infallible (panicking-only) sub-codec parse. -/
theorem flowMatchFieldParse_err {l : List Nat} {e : Error}
    (h : flowMatchFieldParse l = .err e) : e = .badOxmField := by
  unfold flowMatchFieldParse at h
  split at h
  · exact absurd h (by simp)
  · split at h <;>
      first
        | exact absurd (Outcome.map_eq_err.mp h) (liftOpt_ne_err _ _)
        | exact (Outcome.err.inj h).symm

/-- Errors of `PacketRegisters::parse` are exactly `Malformed`, raised
precisely when the declared length is neither 8 nor 16. -/
theorem packetRegistersParse_err {l : List Nat} {d : Nat}
    (hd : l[3]? = some d) :
    (packetRegistersParse l = .err .malformed ↔ ¬(d = 8 ∨ d = 16)) ∧
      ∀ e, packetRegistersParse l = .err e → e = .malformed := by
  simp only [packetRegistersParse, hd]
  by_cases hne : d ≠ 8 ∧ d ≠ 16
  · rw [if_pos hne]
    constructor
    · simp [hne.1, hne.2]
    · intro e he
      exact (Outcome.err.inj he).symm
  · rw [if_neg hne]
    constructor
    · simp only [iff_false_intro (by tauto : ¬¬(d = 8 ∨ d = 16)), iff_false]
      exact liftOpt_ne_err _ _
    · intro e he
      exact absurd he (liftOpt_ne_err _ _)

/-- `check_len` succeeds when the buffer reaches `4 + declared` bytes (it in
fact only requires `3 + declared`). -/
theorem oxmCheckLen_ok {l : List Nat} {d : Nat}
    (hd : l[3]? = some d) (hlen : d + 3 ≤ l.length) : oxmCheckLen l = .ok () := by
  have h3 : 3 < l.length := (List.getElem?_eq_some.mp hd).1
  simp only [oxmCheckLen, hd]
  rw [if_neg (show ¬l.length < 3 by omega), if_neg (show ¬l.length < d + 3 by omega)]

/-- C9: for a length-valid buffer, `Oxm::parse` fails with
`UnsupportedOxmClass` exactly on the legacy classes 0x0000/0x0001, with
`BadOxmClass` exactly on a class outside
{0x0000, 0x0001, 0x8000, 0x8001, 0xFFFF}, and, for the packet-registers
class 0x8001, with `Malformed` exactly when the declared length is neither
8 nor 16. The experimenter parser is assumed not to return the two
class-dispatch errors itself (its failures propagate unmodified). -/
theorem c9_oxm_parse_class_dispatch (ε : Type) (R : ReprImpl ε)
    (hE : ∀ b, R.parse b ≠ .err .unsupportedOxmClass ∧ R.parse b ≠ .err .badOxmClass)
    (l : List Nat) (c d : Nat)
    (hc : oxmClassField l = some c) (hd : l[3]? = some d)
    (hlen : 4 + d ≤ l.length) :
    (oxmParse R l = .err .unsupportedOxmClass ↔ c = 0x0000 ∨ c = 0x0001) ∧
    (oxmParse R l = .err .badOxmClass ↔
      ¬(c = 0x0000 ∨ c = 0x0001 ∨ c = 0x8000 ∨ c = 0x8001 ∨ c = 0xFFFF)) ∧
    (c = 0x8001 → (oxmParse R l = .err .malformed ↔ ¬(d = 8 ∨ d = 16))) := by
  have hok : oxmCheckLen l = .ok () := oxmCheckLen_ok hd (by omega)
  unfold oxmParse
  rw [hok, hc]
  simp only
  by_cases h1 : c = CLASS_OPEN_FLOW_BASIC
  · rw [if_pos h1]
    refine ⟨?_, ?_, ?_⟩
    · simp only [Outcome.map_eq_err]
      constructor
      · intro h; exact absurd (flowMatchFieldParse_err h) (by simp)
      · intro h; simp [CLASS_OPEN_FLOW_BASIC] at h1; omega
    · simp only [Outcome.map_eq_err]
      constructor
      · intro h; exact absurd (flowMatchFieldParse_err h) (by simp)
      · intro h; exact absurd (Or.inr (Or.inr (Or.inl h1))) h
    · intro h8001; rw [h1] at h8001; simp [CLASS_OPEN_FLOW_BASIC, CLASS_PACKET_REGISTERS] at h8001
  · rw [if_neg h1]
    by_cases h2 : c = CLASS_PACKET_REGISTERS
    · rw [if_pos h2]
      have hpr := packetRegistersParse_err hd
      refine ⟨?_, ?_, ?_⟩
      · simp only [Outcome.map_eq_err]
        constructor
        · intro h; exact absurd (hpr.2 _ h) (by simp)
        · intro h; simp [CLASS_PACKET_REGISTERS] at h2; omega
      · simp only [Outcome.map_eq_err]
        constructor
        · intro h; exact absurd (hpr.2 _ h) (by simp)
        · intro h; exact absurd (Or.inr (Or.inr (Or.inr (Or.inl h2)))) h
      · intro _
        simp only [Outcome.map_eq_err]
        exact hpr.1
    · rw [if_neg h2]
      by_cases h3 : c = CLASS_EXPERIMENTER
      · rw [if_pos h3]
        refine ⟨?_, ?_, ?_⟩
        · simp only [Outcome.map_eq_err]
          constructor
          · intro h; exact absurd h (hE l).1
          · intro h; simp [CLASS_EXPERIMENTER] at h3; omega
        · simp only [Outcome.map_eq_err]
          constructor
          · intro h; exact absurd h (hE l).2
          · intro h; exact absurd (Or.inr (Or.inr (Or.inr (Or.inr h3)))) h
        · intro h8001; rw [h3] at h8001; simp [CLASS_EXPERIMENTER, CLASS_PACKET_REGISTERS] at h8001
      · rw [if_neg h3]
        by_cases h4 : c = CLASS_NXM0 ∨ c = CLASS_NXM1
        · rw [if_pos h4]
          refine ⟨?_, ?_, ?_⟩
          · simp only [CLASS_NXM0, CLASS_NXM1] at h4
            simp [h4]
          · constructor
            · intro h; exact absurd h (by simp)
            · intro h
              simp only [CLASS_NXM0, CLASS_NXM1] at h4
              exact absurd (by tauto) h
          · intro h8001
            rw [h8001] at h4
            simp [CLASS_NXM0, CLASS_NXM1, CLASS_PACKET_REGISTERS] at h4
        · rw [if_neg h4]
          refine ⟨?_, ?_, ?_⟩
          · constructor
            · intro h; exact absurd h (by simp)
            · intro h
              simp only [CLASS_NXM0, CLASS_NXM1] at h4
              exact absurd (by tauto) h4
          · constructor
            · intro _
              simp only [CLASS_NXM0, CLASS_NXM1, CLASS_OPEN_FLOW_BASIC,
                CLASS_PACKET_REGISTERS, CLASS_EXPERIMENTER] at h1 h2 h3 h4
              tauto
            · intro _; rfl
          · intro h8001; exact absurd h8001 h2

/-- C9 witness: a concrete length-valid packet-registers buffer with class
0x8001 and declared length 9 (13 bytes in total). -/
theorem c9_witness :
    (oxmParse testExperimenter [0x80, 0x01, 0x00, 0x09, 0, 0, 0, 0, 0, 0, 0, 0, 0]
        = .err .unsupportedOxmClass ↔ (0x8001 : Nat) = 0x0000 ∨ (0x8001 : Nat) = 0x0001) ∧
    (oxmParse testExperimenter [0x80, 0x01, 0x00, 0x09, 0, 0, 0, 0, 0, 0, 0, 0, 0]
        = .err .badOxmClass ↔
      ¬((0x8001 : Nat) = 0x0000 ∨ (0x8001 : Nat) = 0x0001 ∨ (0x8001 : Nat) = 0x8000 ∨
        (0x8001 : Nat) = 0x8001 ∨ (0x8001 : Nat) = 0xFFFF)) ∧
    ((0x8001 : Nat) = 0x8001 →
      (oxmParse testExperimenter [0x80, 0x01, 0x00, 0x09, 0, 0, 0, 0, 0, 0, 0, 0, 0]
        = .err .malformed ↔ ¬((9 : Nat) = 8 ∨ (9 : Nat) = 16))) :=
  c9_oxm_parse_class_dispatch Unit testExperimenter
    (fun _ => ⟨by simp [testExperimenter], by simp [testExperimenter]⟩)
    [0x80, 0x01, 0x00, 0x09, 0, 0, 0, 0, 0, 0, 0, 0, 0] 0x8001 9
    (by decide) (by decide) (by decide)

/-- C7 counterexample: the claim states that an element whose 4-byte header
is present but whose declared payload length exceeds the remaining bytes
aborts the whole parse. In this 16-byte flow match (declared length 12) the
8-byte OXM-fields region starts with a complete header
`80 00 00 64` declaring a 100-byte payload; `FlowMatch::parse` nevertheless
returns `Ok` with an empty element list instead of an error. -/
theorem c7_counterexample :
    flowMatchParse testExperimenter
      [0x00, 0x01, 0x00, 12, 0x80, 0x00, 0x00, 100, 0, 0, 0, 0, 0, 0, 0, 0]
      = .ok [] := by decide

/-- C7 amended: during the element loop of `FlowMatch::parse`, end-of-list is
concluded exactly when `Oxm::parse` of the remaining slice fails with
`Truncated`; any other element error is propagated and aborts the parse; and
an element whose 4-byte header is fully present (`rem[3]?` is defined, so the
slice holds at least 4 bytes) but whose declared payload length `d` overruns
the remaining bytes (`rem.length < d + 3`) fails with exactly this
list-ending `Truncated`, rather than aborting. -/
theorem c7_truncated_ends_element_list (ε : Type) (R : ReprImpl ε)
    (rem : List Nat) (acc : List (Oxm ε)) (fuel : Nat) :
    (oxmParse R rem = .err .truncated →
      oxmFieldsLoop R (fuel + 1) rem acc = .ok acc) ∧
    (∀ e, e ≠ Error.truncated → oxmParse R rem = .err e →
      oxmFieldsLoop R (fuel + 1) rem acc = .err e) ∧
    (∀ d, rem[3]? = some d → rem.length < d + 3 →
      oxmParse R rem = .err .truncated) := by
  refine ⟨?_, ?_, ?_⟩
  · intro h
    simp only [oxmFieldsLoop, h]
  · intro e he h
    cases e <;> (simp only [oxmFieldsLoop, h]; try rfl)
    exact absurd rfl he
  · intro d hd hov
    have h3 : 3 < rem.length := (List.getElem?_eq_some.mp hd).1
    have hck : oxmCheckLen rem = .err .truncated := by
      simp only [oxmCheckLen, hd]
      rw [if_neg (show ¬rem.length < 3 by omega), if_pos hov]
    simp only [oxmParse, hck]

/-- C7 witness: the 8-byte region of the counterexample, whose first header
declares 100 payload bytes; the loop ends the list at once. -/
theorem c7_witness :
    oxmFieldsLoop testExperimenter 1 [0x80, 0x00, 0x00, 100, 0, 0, 0, 0]
      ([] : List (Oxm Unit)) = .ok [] :=
  (c7_truncated_ends_element_list Unit testExperimenter
    [0x80, 0x00, 0x00, 100, 0, 0, 0, 0] [] 0).1 (by decide)

/-- C1: the claim states that emitting any representable field value —
masked variants included — into a buffer of exactly `buffer_len()` bytes
succeeds and round-trips. For the masked `VlanId` value
`VlanId::new(0x0123, Some(0x0fff))`, `buffer_len()` is 6 (its `value_len()`
stays 2 with the mask), and `emit` into a 6-byte buffer panics: after the
4-byte header only 2 bytes remain, and `emit_value` writes the mask at
offsets 2..4 of that 2-byte slice, out of bounds. -/
theorem c1_masked_vlan_id_emit_panics :
    fmfBufferLen (.vlanId (VlanId.new 0x0123 (some 0x0fff))) = 6 ∧
    fmfEmit (.vlanId (VlanId.new 0x0123 (some 0x0fff))) [0, 0, 0, 0, 0, 0]
      = .panicked := by decide

/-- C2: the claim states `FlowMatch::buffer_len()` is at least
`4 + sum(element buffer_len)`. For the single-element list holding the
unmasked `InPort` field (element `buffer_len()` 8), `fields_len()` is 8 and
`buffer_len()` is `round_up_8(8) = 8 < 4 + 8`: the formula
`PADDING(fields_len()).end` omits the 4-byte flow-match header. Emitting
this value into a `buffer_len()`-sized buffer consequently panics (its emit
needs `round_up_8(12) = 16` bytes). -/
theorem c2_buffer_len_omits_header :
    flowMatchFieldsLen testExperimenter
        [Oxm.flowMatchField (.inPort (InPort.new 0xabcd))] = 8 ∧
    flowMatchBufferLen testExperimenter
        [Oxm.flowMatchField (.inPort (InPort.new 0xabcd))] <
      4 + flowMatchFieldsLen testExperimenter
        [Oxm.flowMatchField (.inPort (InPort.new 0xabcd))] ∧
    flowMatchEmit testExperimenter
        [Oxm.flowMatchField (.inPort (InPort.new 0xabcd))]
        [0, 0, 0, 0, 0, 0, 0, 0] = .panicked := by decide

/-- C3: the claim states `value_len()` is exactly twice the base length when
the mask is present, for every maskable field. The masked values below all
report `has_mask()` yet keep their unmasked `value_len` (base lengths 2, 2,
and 4): `VlanId`, `TcpFlags` and `Ipv4Source` return a constant. -/
theorem c3_masked_value_len_not_doubled :
    (VlanId.new 0x0123 (some 0x0fff)).has_mask = true ∧
    (VlanId.new 0x0123 (some 0x0fff)).value_len = 2 ∧
    (TcpFlags.new 0x001 (some 0x00f)).has_mask = true ∧
    (TcpFlags.new 0x001 (some 0x00f)).value_len = 2 ∧
    (Ipv4Source.new [10, 0, 0, 1] (some [255, 0, 0, 0])).has_mask = true ∧
    (Ipv4Source.new [10, 0, 0, 1] (some [255, 0, 0, 0])).value_len = 4 := by decide

/-- C4: the claim states every standard field id in {0..44} minus {40} —
explicitly including 5 (eth_type) — parses without `BadOxmField`. On the
header `80 00 0A 02` (class 0x8000, field id 5, no mask, length 2, value
0x0800) `FlowMatchField::parse` returns `Err(BadOxmField)`: the dispatch has
no arm for id 5, although the `EthernetType` codec with `code() = 5` exists
in `header.rs`. The neighbouring ids 4 and 6 dispatch fine. -/
theorem c4_eth_type_rejected :
    flowMatchFieldParse [0x80, 0x00, 0x0A, 0x02, 0x08, 0x00] = .err .badOxmField ∧
    oxmParse testExperimenter [0x80, 0x00, 0x0A, 0x02, 0x08, 0x00]
      = .err .badOxmField ∧
    EthernetType.code = 5 ∧
    flowMatchFieldParse [0x80, 0x00, 0x08, 0x06, 1, 2, 3, 4, 5, 6]
      = .ok (.ethernetSource (EthernetSource.new [1, 2, 3, 4, 5, 6] none)) ∧
    flowMatchFieldParse [0x80, 0x00, 0x0C, 0x02, 0x0F, 0xFF]
      = .ok (.vlanId (VlanId.new 0x0FFF none)) := by decide

/-- C5: the claim states `check_len` returns `Err(Truncated)` iff the buffer
is shorter than `4 + declared`, and never reads out of bounds. The code
compares against `declared + 3` (`field::LENGTH`, the length byte's offset,
stands in for the 4-byte header length): the 4-byte buffer `80 00 00 01`
(declared length 1, so 4 < 4 + 1) passes `check_len`, and on a 3-byte buffer
the guard `len < 3` fails to protect the read of byte 3, which panics
instead of returning `Err(Truncated)`. -/
theorem c5_check_len_off_by_one :
    oxmCheckLen [0x80, 0x00, 0x00, 0x01] = .ok () ∧
    oxmCheckLen [0x00, 0x00, 0x00] = .panicked ∧
    oxmCheckLen [0x00, 0x00] = .err .truncated := by decide

/-- C6: the claim states every truncating field keeps
`stored mask = input & significant_mask` after any `set_mask`. For
`Ipv6FlowLabel` (20 significant bits) `set_mask` stores the raw input:
starting from `new(0, None)`, `set_mask(0xFFFFFFFF)` stores `0xFFFFFFFF`,
not `0xFFFFFFFF & 0x000fffff = 0x000fffff`. (Every sibling truncating
field's `set_mask` — e.g. `VlanId`'s — does truncate.) -/
theorem c6_ipv6_flow_label_set_mask_untruncated :
    ((Ipv6FlowLabel.new 0 none).set_mask 0xFFFFFFFF).mask = some 0xFFFFFFFF ∧
    Nat.land 0xFFFFFFFF 0x000fffff = 0x000fffff ∧
    ((Ipv6FlowLabel.new 0 none).set_mask 0xFFFFFFFF).mask ≠ some 0x000fffff ∧
    ((VlanId.new 0 none).set_mask 0xFFFF).mask = some 0x1fff := by decide

/-- C8: the claim states every core emit — `FlowMatch::emit` included —
first checks the destination holds `buffer_len()` bytes and returns
`Err(Exhausted)` without writing on a too-small buffer. `PacketRepr::emit`
has no such check: into a 2-byte buffer (flow-match `buffer_len()` is 8
here) it writes the 2-byte match type and then panics writing the length
field out of bounds — an out-of-bounds access after a partial write, never
`Err(Exhausted)`. The per-field emit does check first, as the last conjunct
shows. -/
theorem c8_flow_match_emit_unchecked :
    flowMatchBufferLen testExperimenter
        [Oxm.flowMatchField (.inPort (InPort.new 0xabcd))] = 8 ∧
    flowMatchEmit testExperimenter
        [Oxm.flowMatchField (.inPort (InPort.new 0xabcd))] [0, 0] = .panicked ∧
    fmfEmit (.inPort (InPort.new 0xabcd)) [0, 0] = .err .exhausted := by decide

/-- C10: the claim states `PacketRegisters::emit` writes the payload length
(8 unmasked, 16 masked) into the header's length field. The code writes
`buffer_len() as u8`, the total TLV length: byte 3 of the emitted unmasked
TLV is 12 (masked: 20), and the emitted 12-byte TLV does not even re-parse —
`check_len` wants `12 + 3` bytes, so `Oxm::parse` reports `Truncated`. -/
theorem c10_packet_registers_emit_length :
    packetRegistersEmit (PacketRegisters.mk 5 7 none)
        [0, 0, 0, 0, 0, 0, 0, 0, 0, 0, 0, 0]
      = .ok [0x80, 0x01, 10, 12, 0, 0, 0, 0, 0, 0, 0, 7] ∧
    packetRegistersEmit (PacketRegisters.mk 5 7 (some 9))
        [0, 0, 0, 0, 0, 0, 0, 0, 0, 0, 0, 0, 0, 0, 0, 0, 0, 0, 0, 0]
      = .ok [0x80, 0x01, 11, 20, 0, 0, 0, 0, 0, 0, 0, 7, 0, 0, 0, 0, 0, 0, 0, 9] ∧
    oxmParse testExperimenter [0x80, 0x01, 10, 12, 0, 0, 0, 0, 0, 0, 0, 7]
      = .err .truncated := by decide
